import Mathlib

/-!
Verification of the sr-test concurrent optical-drive exerciser
(src/sr-test.py) against its natural-language specification.

Modelling conventions, used throughout:
* The sysfs filesystem is a pure structure `Sysfs` with two partial maps:
  `readlink p` models `os.readlink(p)` (`none` = `FileNotFoundError`) and
  `readFile p` models `open(p).read()` (`none` = `FileNotFoundError`).
  The source catches exactly `FileNotFoundError` at these sites, so absence
  is the only failure mode modelled.
* Python string primitives (`split`, `strip`, `replace`, `startswith`,
  `in`, `<`) are modelled by structurally recursive functions over the
  character list of the string, so that every definition evaluates by
  kernel reduction on concrete inputs.
* Durations (`datetime` differences) are modelled as integer ticks (`Int`);
  `str(timedelta)` is modelled as `toString` of the tick count.
* Python `None`-or-value locals become `Option`; an uncaught Python
  exception becomes a `none` / `Except.error` result of the modelled
  function.
* Python dicts with the fixed key sets produced by `tray_eject` /
  `tray_close` (4 keys each, merged to 8 by `dict.update`) are modelled as
  the structures `EjectTimings`, `CloseTimings`, `DeviceTimings`; the
  per-run baseline dict (device path -> per-device dict) is an association
  list `List (String × DeviceTimings)`.
-/

/-- Split a character list at every occurrence of the separator character,
keeping empty pieces, as Python `str.split` with a one-character separator
does. -/
def chSplit (sep : Char) : List Char → List (List Char)
  | [] => [[]]
  | c :: cs =>
    let r := chSplit sep cs
    if c = sep then [] :: r
    else (c :: r.headD []) :: r.tail

/-- Python `s.split(sep)` for a one-character separator. -/
def pySplit (sep : Char) (s : String) : List String :=
  (chSplit sep s.toList).map (fun l => String.mk l)

/-- Whether the first list is an initial segment of the second
(Python `str.startswith`, on character lists). -/
def chStarts : List Char → List Char → Bool
  | [], _ => true
  | _ :: _, [] => false
  | a :: as, b :: bs => a = b && chStarts as bs

/-- Python `s.startswith(pre)`. -/
def pyStartsWith (s pre : String) : Bool :=
  chStarts pre.toList s.toList

/-- Occurrence of `needle` anywhere in the list (Python substring `in`). -/
def chSub (needle : List Char) : List Char → Bool
  | [] => needle.isEmpty
  | c :: t => chStarts needle (c :: t) || chSub needle t

/-- Python `needle in hay` substring test. -/
def pyIn (needle hay : String) : Bool :=
  chSub needle.toList hay.toList

/-- Python `str.strip()`: drop leading and trailing whitespace. -/
def pyStrip (s : String) : String :=
  String.mk (((s.toList.dropWhile Char.isWhitespace).reverse.dropWhile
    Char.isWhitespace).reverse)

/-- Remove every (left-to-right, non-overlapping) occurrence of the
two-character pattern `0x`, as `str.replace("0x", "")` does. -/
def chDrop0x : List Char → List Char
  | '0' :: 'x' :: t => chDrop0x t
  | c :: t => c :: chDrop0x t
  | [] => []

/-- Python code-point comparison `a < b` on strings, via character lists. -/
def chLt : List Char → List Char → Bool
  | [], [] => false
  | [], _ :: _ => true
  | _ :: _, [] => false
  | a :: as, b :: bs => a < b || (a = b && chLt as bs)

/-- Python `a < b` on strings. -/
def pyStrLt (a b : String) : Bool :=
  chLt a.toList b.toList

/-- Abstract sysfs: `readlink` for symbolic links (the `driver` links),
`readFile` for attribute files (`vendor`, `device`, `idVendor`,
`idProduct`).  `none` models `FileNotFoundError`. -/
structure Sysfs where
  readlink : String → Option String
  readFile : String → Option String

/-- `os.path.basename`: the part after the final slash. -/
def basename (p : String) : String :=
  (pySplit '/' p).getLastD ""

/-- `os.path.join("/", *parts[0:n])` for the pieces of a canonical device
path (no piece contains a slash; the leading piece of an absolute path is
empty and is dropped by `join`). -/
def joinRootParts (parts : List String) (n : Nat) : String :=
  "/" ++ String.intercalate "/" ((parts.take n).filter (fun s => decide (s ≠ "")))

/-- `f.read().strip().replace("0x", "")` applied to an attribute file that
may be absent (`none` = `FileNotFoundError`). -/
def readAttr (fs : Sysfs) (p : String) : Option String :=
  (fs.readFile p).map (fun s => String.mk (chDrop0x (pyStrip s).toList))

/-- Python truthiness of an `Optional[str]`: `None` and `""` are falsy. -/
def pyTruthyStr (o : Option String) : Bool :=
  match o with
  | none => false
  | some s => decide (s ≠ "")

/-- One layer of the driver-chain walk of `device_drivers` (source lines
53-80), at prefix `base`:
* resolve the `driver` link (absent: skip the layer, `none`);
* try the PCI-style attribute pair `vendor`/`device`; a missing file
  aborts that `try` block, keeping whatever was assigned before it;
* then try the USB-style pair `idVendor`/`idProduct` unconditionally; a
  successful read overwrites the PCI-style value;
* annotate the driver name with `[vendor:product]` when both final values
  are truthy (non-`None` and non-empty). -/
def layer_driver (fs : Sysfs) (base : String) : Option String :=
  match fs.readlink (base ++ "/driver") with
  | none => none
  | some link =>
    let driver := basename link
    let vp1 : Option String × Option String :=
      match readAttr fs (base ++ "/vendor") with
      | none => (none, none)
      | some v =>
        match readAttr fs (base ++ "/device") with
        | none => (some v, none)
        | some p => (some v, some p)
    let vp2 : Option String × Option String :=
      match readAttr fs (base ++ "/idVendor") with
      | none => vp1
      | some v =>
        match readAttr fs (base ++ "/idProduct") with
        | none => (some v, vp1.2)
        | some p => (some v, some p)
    if pyTruthyStr vp2.1 && pyTruthyStr vp2.2 then
      some (driver ++ "[" ++ vp2.1.getD "" ++ ":" ++ vp2.2.getD "" ++ "]")
    else
      some driver

/-- `device_drivers(device)` (source lines 47-82): walk the path prefixes
from depth 4 up to the full path (`range(4, len(parts) + 1)`), collecting
one driver name per layer whose `driver` link resolves. -/
def device_drivers (fs : Sysfs) (device : String) : List String :=
  let parts := pySplit '/' device
  (List.range' 4 (parts.length + 1 - 4)).filterMap
    (fun n => layer_driver fs (joinRootParts parts n))

/-- `is_usb(device)` (source lines 206-207): substring test on the path. -/
def is_usb (device : String) : Bool :=
  pyIn "/usb" device

/-- `is_pata(device, drivers)` (source lines 209-215) on an already
computed driver list (the `drivers=None` default recomputation is inlined
at call sites, as in the source). -/
def is_pata (drivers : List String) : Bool :=
  drivers.any (fun d => pyStartsWith d "pata")

/-- `is_sata(device, drivers)` (source lines 217-223). -/
def is_sata (drivers : List String) : Bool :=
  drivers.any (fun d => pyStartsWith d "sata")

/-- `device_sort_key(device)` (source lines 226-237).  The first component
is the Python value `"usb"` / `"pata"` / `"sata"` / `None`, modelled as
`Option String`. -/
def device_sort_key (fs : Sysfs) (device : String) : Option String × String :=
  if is_usb device then (some "usb", device)
  else
    let drivers := device_drivers fs device
    if is_pata drivers then (some "pata", device)
    else if is_sata drivers then (some "sata", device)
    else (none, device)

/-- `device_type(device)` (source lines 239-250).  In the PATA branch the
channel accumulator scans `parts[4:]` and each later `ata*` segment
overwrites the earlier one; that branch always builds a `str` (its
sort-key class is `"usb"` or `"pata"`, never `None`, so the `getD ""`
default is never exercised).  The non-PATA branch returns the sort-key
class itself, which may be Python `None`. -/
def device_type (fs : Sysfs) (device : String) : Option String :=
  let drivers := device_drivers fs device
  if is_pata drivers then
    let parts := pySplit '/' device
    let ata := (parts.drop 4).foldl
      (fun acc seg => if pyStartsWith seg "ata" then " " ++ seg else acc) ""
    some ((device_sort_key fs device).1.getD "" ++ ata ++
      (if pyIn ":1:0/block" device then " slave" else " master"))
  else
    (device_sort_key fs device).1

/-- A captured `OSError` from `fcntl.ioctl` (only the errno matters for
the model). -/
structure OSErr where
  errno : Int
deriving Repr, DecidableEq

/-- The observable behaviour of one device during one tray operation: the
per-phase wall-clock durations the `datetime.now()` pairs would measure,
and the ioctl outcome (`Except.ok ret` for a raw status code,
`Except.error e` for a raised-and-caught `OSError`). -/
structure TrayWorld where
  openDur : Int
  ioctlOutcome : Except OSErr Int
  ioctlDur : Int
  closeDur : Int
  totalDur : Int
deriving Repr

/-- The dict returned by `tray_eject` (source line 130), keys
`eject_total`, `eject_open`, `eject_ioctl`, `eject_close`. -/
structure EjectTimings where
  eject_total : Int
  eject_open : Int
  eject_ioctl : Int
  eject_close : Int
deriving Repr, DecidableEq

/-- The dict returned by `tray_close` (source line 166), keys
`close_total`, `close_open`, `close_ioctl`, `close_close`. -/
structure CloseTimings where
  close_total : Int
  close_open : Int
  close_ioctl : Int
  close_close : Int
deriving Repr, DecidableEq

/-- One device's baseline entry: the 8-key dict built by
`reference_timings` (eject dict merged with the close dict via
`dict.update`, source lines 255-257). -/
structure DeviceTimings where
  eject_total : Int
  eject_open : Int
  eject_ioctl : Int
  eject_close : Int
  close_total : Int
  close_open : Int
  close_ioctl : Int
  close_close : Int
deriving Repr, DecidableEq

/-- `format_td(td)` (source lines 90-94): sign-prefixed rendering of a
timedelta, modelled on tick counts. -/
def format_td (td : Int) : String :=
  if td < 0 then "-" ++ toString (-td) else "+" ++ toString td

/-- Hexadecimal rendering of an integer, as Python `f"{n:x}"`. -/
def hexOfInt (n : Int) : String :=
  if n < 0 then "-" ++ String.mk (Nat.toDigits 16 n.natAbs)
  else String.mk (Nat.toDigits 16 n.natAbs)

/-- Python `f"{ret:x}"` where `ret` is either an `int` or a captured
`OSError` (source lines 129, 165): an `int` formats normally, but
`object.__format__` REJECTS a non-empty format spec for an `OSError`, so
the f-string raises `TypeError` (modelled as `none`). -/
def formatHexRet : Except OSErr Int → Option String
  | Except.ok n => some (hexOfInt n)
  | Except.error _ => none

/-- The observable outcome of `tray_eject` (source lines 96-130): the four
reference-delta comparison strings printed by `uprint` after each phase
(empty when there is no baseline entry), the final summary line (absent
when its f-string raised), and the returned timings dict (absent when the
function raised instead of returning). -/
structure EjectRun where
  ref_open : String
  ref_ioctl : String
  ref_close : String
  ref_total : String
  finalLine : Option String
  result : Option EjectTimings
deriving Repr

/-- `tray_eject((device, timings))` (source lines 96-130).  The ioctl's
`OSError` is caught and bound to `ret`; all four phase durations are
measured; but the final `uprint` formats `ret` with `0x{ret:x}`, which
raises `TypeError` when `ret` is an `OSError`, so in that case the final
line is never printed and the timings dict is never returned. -/
def tray_eject (fs : Sysfs) (w : TrayWorld) (device : String)
    (timings : Option DeviceTimings) : EjectRun :=
  let name := "/dev/" ++ (pySplit '/' device).getLastD ""
  let ref_open := match timings with
    | some t => format_td (w.openDur - t.eject_open)
    | none => ""
  let ref_ioctl := match timings with
    | some t => format_td (w.ioctlDur - t.eject_ioctl)
    | none => ""
  let ref_close := match timings with
    | some t => format_td (w.closeDur - t.eject_close)
    | none => ""
  let ref_total := match timings with
    | some t => format_td (w.totalDur - t.eject_total)
    | none => ""
  match formatHexRet w.ioctlOutcome with
  | none => ⟨ref_open, ref_ioctl, ref_close, ref_total, none, none⟩
  | some h =>
    let line := "== Tray ejected on " ++ name ++ ", 0x" ++ h ++ " (" ++
      toString w.totalDur ++ ") " ++ ref_total ++ " " ++
      (match device_type fs device with
       | some s => s
       | none => "None")
    ⟨ref_open, ref_ioctl, ref_close, ref_total, some line,
      some ⟨w.totalDur, w.openDur, w.ioctlDur, w.closeDur⟩⟩

/-- The observable outcome of `tray_close`, mirroring `EjectRun`. -/
structure CloseRun where
  ref_open : String
  ref_ioctl : String
  ref_close : String
  ref_total : String
  finalLine : Option String
  result : Option CloseTimings
deriving Repr

/-- `tray_close((device, timings))` (source lines 132-166), structured
exactly like `tray_eject` but with the `close_*` baseline keys and the
`CDROMCLOSETRAY` ioctl; it has the same `0x{ret:x}` `TypeError` on a
captured `OSError`. -/
def tray_close (fs : Sysfs) (w : TrayWorld) (device : String)
    (timings : Option DeviceTimings) : CloseRun :=
  let name := "/dev/" ++ (pySplit '/' device).getLastD ""
  let ref_open := match timings with
    | some t => format_td (w.openDur - t.close_open)
    | none => ""
  let ref_ioctl := match timings with
    | some t => format_td (w.ioctlDur - t.close_ioctl)
    | none => ""
  let ref_close := match timings with
    | some t => format_td (w.closeDur - t.close_close)
    | none => ""
  let ref_total := match timings with
    | some t => format_td (w.totalDur - t.close_total)
    | none => ""
  match formatHexRet w.ioctlOutcome with
  | none => ⟨ref_open, ref_ioctl, ref_close, ref_total, none, none⟩
  | some h =>
    let line := "== Tray closed on " ++ name ++ ", 0x" ++ h ++ " (" ++
      toString w.totalDur ++ ") " ++ ref_total ++ " " ++
      (match device_type fs device with
       | some s => s
       | none => "None")
    ⟨ref_open, ref_ioctl, ref_close, ref_total, some line,
      some ⟨w.totalDur, w.openDur, w.ioctlDur, w.closeDur⟩⟩

/-- `dict.update`: merge an eject dict and a close dict into the 8-key
per-device baseline entry (source lines 255-257). -/
def updateTimings (e : EjectTimings) (c : CloseTimings) : DeviceTimings :=
  ⟨e.eject_total, e.eject_open, e.eject_ioctl, e.eject_close,
   c.close_total, c.close_open, c.close_ioctl, c.close_close⟩

/-- `timings.get(device)` on the baseline dict (source lines 306, 309):
`None` when the device has no entry. -/
def timingsGet (timings : List (String × DeviceTimings)) (device : String) :
    Option DeviceTimings :=
  (timings.find? (fun e => e.1 == device)).map (fun e => e.2)

/-- The `try: pickle.load ... except FileNotFoundError: timings = {}`
block (source lines 293-297): an absent store yields the empty mapping. -/
def load_timings (store : Option (List (String × DeviceTimings))) :
    List (String × DeviceTimings) :=
  match store with
  | none => []
  | some t => t

/-- `reference_timings(devices)` (source lines 252-260): per device, a
paced sequential eject then close with no baseline (`timings=None`); the
two returned dicts are merged with `dict.update`.  If either call raises
(captured-`OSError` `TypeError`, see `tray_eject`), the whole capture
raises (`none`).  The `time.sleep(5)` settle waits have no observable
effect in the model.  `ws` gives each device its eject world (first) and
close world (second). -/
def reference_timings (fs : Sysfs) (ws : String → TrayWorld × TrayWorld)
    (devices : List String) : Option (List (String × DeviceTimings)) :=
  devices.mapM (fun device =>
    match (tray_eject fs (ws device).1 device none).result with
    | none => none
    | some e =>
      match (tray_close fs (ws device).2 device none).result with
      | none => none
      | some c => some (device, updateTimings e c))

/-- `pool.map(tray_eject, [(device, timings.get(device)) ...])` (source
line 306): `multiprocessing.Pool.map` re-raises the first worker exception
in the parent and then yields no result list at all, so a raising worker
turns the whole map into `none`; otherwise one `EjectTimings` is produced
per device, in device order. -/
def pool_map_eject (fs : Sysfs) (ws : String → TrayWorld × TrayWorld)
    (devices : List String) (timings : List (String × DeviceTimings)) :
    Option (List EjectTimings) :=
  devices.mapM (fun d => (tray_eject fs (ws d).1 d (timingsGet timings d)).result)

/-- `pool.map(tray_close, ...)` (source line 309), as `pool_map_eject`. -/
def pool_map_close (fs : Sysfs) (ws : String → TrayWorld × TrayWorld)
    (devices : List String) (timings : List (String × DeviceTimings)) :
    Option (List CloseTimings) :=
  devices.mapM (fun d => (tray_close fs (ws d).2 d (timingsGet timings d)).result)

/-- Python comparison `a < b` on two sort keys, i.e. on the tuples
returned by `device_sort_key`: tuple comparison first tests the heads for
equality (`None == str` is `False`, no error) and, when unequal, orders
them with `<` — which raises `TypeError` (`none`) between `None` and a
`str`. -/
def pyKeyLt (a b : Option String × String) : Option Bool :=
  match a.1, b.1 with
  | none, none => some (pyStrLt a.2 b.2)
  | some x, some y =>
    if x = y then some (pyStrLt a.2 b.2) else some (pyStrLt x y)
  | _, _ => none

/-- Stable insertion of `x` into an already sorted list under a partial
strict comparison: `x` is placed before the first element it compares
strictly below, so elements comparing equal keep their input order (as
Python's stable `sorted` does); a `TypeError` (`none`) from any needed
comparison aborts the whole sort. -/
def insertSorted (lt : α → α → Option Bool) (x : α) :
    List α → Option (List α)
  | [] => some [x]
  | y :: ys =>
    match lt x y with
    | none => none
    | some true => some (x :: y :: ys)
    | some false =>
      match insertSorted lt x ys with
      | none => none
      | some zs => some (y :: zs)

/-- Python `sorted` under a partial strict comparison, as a stable
insertion sort: the result agrees with `sorted` whenever every needed
comparison is defined, and is `none` when a comparison raises. -/
def pySorted (lt : α → α → Option Bool) (l : List α) : Option (List α) :=
  l.foldlM (fun acc x => insertSorted lt x acc) []

/-- `sorted(devices, key=device_sort_key)` (source line 266). -/
def pySortedDevices (fs : Sysfs) (devices : List String) :
    Option (List String) :=
  pySorted (fun a b => pyKeyLt (device_sort_key fs a) (device_sort_key fs b))
    devices

/-- The command-line flags of the source (lines 269-277).  `filter` models
`args.filter`: `none` when `-f` was never given, otherwise the non-empty
accumulated name list. -/
structure Args where
  reference : Bool
  sequential : Bool
  eject : Bool
  eject_usb : Bool
  close : Bool
  close_usb : Bool
  lock : Bool
  unlock : Bool
  filter : Option (List String)
deriving Repr

/-- Python truthiness of `args.filter` (`None` and `[]` are falsy). -/
def pyTruthyList (o : Option (List String)) : Bool :=
  match o with
  | none => false
  | some l => !l.isEmpty

/-- The eject-dispatch selection lambda (source line 306). -/
def eject_selected (args : Args) (device : String) : Bool :=
  (args.eject && !is_usb device) || (args.eject_usb && is_usb device) ||
    ((args.eject || args.eject_usb) && pyTruthyList args.filter)

/-- The close-dispatch selection lambda (source line 309). -/
def close_selected (args : Args) (device : String) : Bool :=
  (args.close && !is_usb device) || (args.close_usb && is_usb device) ||
    ((args.close || args.close_usb) && pyTruthyList args.filter)

/-- The explicit device-name narrowing (source lines 287-288): when
`args.filter` is truthy, keep the devices whose final path segment is in
the filter list. -/
def filter_devices (args : Args) (devices : List String) : List String :=
  if pyTruthyList args.filter then
    devices.filter
      (fun d => (args.filter.getD []).contains ((pySplit '/' d).getLastD ""))
  else devices

/-- The externally visible steps of one `__main__` run, in order. -/
inductive Event where
  | unlockAll (devices : List String)
  | loadBaseline
  | saveBaseline
  | dispatchEject (devices : List String)
  | dispatchClose (devices : List String)
  | lockAll (devices : List String)
deriving Repr, DecidableEq

/-- The message of the `ValueError` that `multiprocessing.Pool` raises
when constructed with `processes=0` (source line 281 with an empty device
list and no `--sequential`). -/
def poolSizeError : String := "ValueError: Number of processes must be at least 1"

/-- The message of the `TypeError` a worker raises when it hex-formats a
captured `OSError` (see `formatHexRet`), re-raised by `pool.map`. -/
def workerFormatError : String :=
  "TypeError: unsupported format string passed to OSError.__format__"

/-- The `__main__` block from the pool construction onwards (source lines
281-312), over an already discovered-and-sorted device list: build the
pool (`processes = 1 if sequential else len(devices)`, rejected when 0),
narrow by the name filter, unlock, load the baseline (`load_timings`),
optionally re-capture and save it, then dispatch eject, close and lock.
Door lock/unlock are modelled as events only (their ioctls play no role in
any claim).  The result is the ordered event list, or the first uncaught
exception. -/
def main_run (fs : Sysfs) (ws : String → TrayWorld × TrayWorld) (args : Args)
    (devices : List String) (store : Option (List (String × DeviceTimings))) :
    Except String (List Event) :=
  if (if args.sequential then 1 else devices.length) = 0 then
    Except.error poolSizeError
  else
    let devices := filter_devices args devices
    let evs := if args.unlock then [Event.unlockAll devices] else []
    let evs := evs ++ [Event.loadBaseline]
    let timings := load_timings store
    let step1 : Except String (List (String × DeviceTimings) × List Event) :=
      if args.reference then
        match reference_timings fs ws (devices.filter (fun d => !is_usb d)) with
        | none => Except.error workerFormatError
        | some t => Except.ok (t, evs ++ [Event.saveBaseline])
      else Except.ok (timings, evs)
    match step1 with
    | Except.error e => Except.error e
    | Except.ok (timings, evs) =>
      let step2 : Except String (List Event) :=
        if args.eject || args.eject_usb then
          let sel := devices.filter (eject_selected args)
          match pool_map_eject fs ws sel timings with
          | none => Except.error workerFormatError
          | some _ => Except.ok (evs ++ [Event.dispatchEject sel])
        else Except.ok evs
      match step2 with
      | Except.error e => Except.error e
      | Except.ok evs =>
        let step3 : Except String (List Event) :=
          if args.close || args.close_usb then
            let sel := devices.filter (close_selected args)
            match pool_map_close fs ws sel timings with
            | none => Except.error workerFormatError
            | some _ => Except.ok (evs ++ [Event.dispatchClose sel])
          else Except.ok evs
        match step3 with
        | Except.error e => Except.error e
        | Except.ok evs =>
          if args.lock then Except.ok (evs ++ [Event.lockAll devices])
          else Except.ok evs

/-- Modelled from the spec: the Reference Baseline Store.  The on-disk
format is `pickle`, an external stdlib collaborator not part of this
repository; the spec fixes only its interface ("a single serialized
mapping, Device-path -> PhaseTiming-mapping"; "core needs only load/save
semantics").  `pickle.dump` (source line 303) is modelled as an injective
flat serialization of the baseline mapping. -/
def pickle_dump : List (String × DeviceTimings) → List (String ⊕ Int)
  | [] => []
  | (p, t) :: rest =>
    Sum.inl p :: Sum.inr t.eject_total :: Sum.inr t.eject_open ::
      Sum.inr t.eject_ioctl :: Sum.inr t.eject_close ::
      Sum.inr t.close_total :: Sum.inr t.close_open ::
      Sum.inr t.close_ioctl :: Sum.inr t.close_close :: pickle_dump rest

/-- Modelled from the spec: `pickle.load` (source line 295), the inverse
deserialization; a malformed stream fails (`none`). -/
def pickle_load : List (String ⊕ Int) → Option (List (String × DeviceTimings))
  | [] => some []
  | Sum.inl p :: Sum.inr a :: Sum.inr b :: Sum.inr c :: Sum.inr d ::
      Sum.inr e :: Sum.inr f :: Sum.inr g :: Sum.inr h :: rest =>
    match pickle_load rest with
    | none => none
    | some m => some ((p, ⟨a, b, c, d, e, f, g, h⟩) :: m)
  | _ => none

/-- A sysfs in which nothing resolves. -/
def fsEmpty : Sysfs := ⟨fun _ => none, fun _ => none⟩

/-- A sysfs exposing a PATA driver under `/a/b/p0` and a SATA driver under
`/a/b/s0`, with no attribute files. -/
def fs3 : Sysfs :=
  ⟨fun p =>
    if p = "/a/b/p0/driver" then some "pata_x"
    else if p = "/a/b/s0/driver" then some "sata_x"
    else none,
   fun _ => none⟩

/-- A PATA-affine device path (its depth-4 prefix is `/a/b/p0`). -/
def pD : String := "/a/b/p0/d/sr1"

/-- A second PATA-affine device on the same controller, with a
lexicographically larger path. -/
def p2D : String := "/a/b/p0/d/sr4"

/-- A SATA-affine device path. -/
def sD : String := "/a/b/s0/d/sr2"

/-- A USB-affine device path (contains the `/usb` segment). -/
def uD : String := "/a/usb1/c/d/sr0"

/-- A device path with no resolving driver and no `/usb` segment: its
sort-key class is Python `None`. -/
def qD : String := "/a/b/q0/d/sr3"

/-- A tray operation whose ioctl succeeds with status 0. -/
def okWorld : TrayWorld := ⟨1, Except.ok 0, 2, 1, 9⟩

/-- A tray operation whose ioctl raises `OSError` with errno 5 (EIO);
the error is caught and bound to `ret`. -/
def errWorld : TrayWorld := ⟨1, Except.error ⟨5⟩, 2, 1, 9⟩

/-- Every device succeeds, for both eject and close. -/
def okWs : String → TrayWorld × TrayWorld := fun _ => (okWorld, okWorld)

/-- Device `p2D` fails its ioctls; every other device succeeds. -/
def errWs : String → TrayWorld × TrayWorld :=
  fun d => if d = p2D then (errWorld, errWorld) else (okWorld, okWorld)

/-- A sysfs exposing a PATA driver under `/a/b/p0`. -/
def fsPata : Sysfs :=
  ⟨fun p => if p = "/a/b/p0/driver" then some "pata_via" else none,
   fun _ => none⟩

/-- A PATA-affine device path with two `ata*` segments at or after
depth 4 (`ata1` at index 4 and `ata2` at index 6). -/
def devTwoAta : String := "/a/b/p0/ata1/x/ata2/t/block/sr3"

/-- A sysfs layer at `/a/b/p9` exposing a driver link together with BOTH
identifier conventions: PCI-style `vendor`/`device` (`0x1002`/`0x4390`)
and USB-style `idVendor`/`idProduct` (`abcd`/`1234`). -/
def fsBoth : Sysfs :=
  ⟨fun p => if p = "/a/b/p9/driver" then some "ahci" else none,
   fun p =>
    if p = "/a/b/p9/vendor" then some "0x1002"
    else if p = "/a/b/p9/device" then some "0x4390"
    else if p = "/a/b/p9/idVendor" then some "abcd"
    else if p = "/a/b/p9/idProduct" then some "1234"
    else none⟩

/-- A device whose depth-4 prefix is the `/a/b/p9` layer of `fsBoth`. -/
def devBoth : String := "/a/b/p9/d/sr5"

/-- C1 (code bug): when the device-control ioctl raises an `OSError`, the
source does catch it and measures every phase, but the final summary line
hex-formats the captured error (`0x{ret:x}`), which raises `TypeError`, so
`tray_eject` raises instead of returning: no timings dict is returned and
the worker aborts (contrast the succeeding world, which returns all four
phase timings). -/
theorem c1_ioctl_error_aborts :
    (tray_eject fsEmpty errWorld pD none).result = none ∧
    (tray_eject fsEmpty errWorld pD none).finalLine = none ∧
    (tray_eject fsEmpty okWorld pD none).result = some ⟨9, 1, 2, 1⟩ := by
  decide

/-- C2 (code bug): `pool.map(tray_eject, ...)` over two devices yields one
result per device when both ioctls succeed, but when one device's ioctl
raises an `OSError` the worker's `TypeError` (see C1) is re-raised by
`pool.map` and NO result list is produced at all: a single device's
failure aborts the whole pool map instead of leaving N results. -/
theorem c2_pool_map_aborts :
    pool_map_eject fsEmpty errWs [pD, p2D] [] = none ∧
    pool_map_eject fsEmpty okWs [pD, p2D] [] =
      some [⟨9, 1, 2, 1⟩, ⟨9, 1, 2, 1⟩] := by
  decide

/-- C3 (counterexample): an input list containing a PATA, a SATA, a USB
and an unknown-class device does NOT sort to
`[pata_dev, sata_dev, unknown_dev, usb_dev]`: the unknown device's sort
key starts with Python `None`, which `sorted` cannot compare with the
string keys, so the sort raises `TypeError` and yields nothing. -/
theorem c3_unknown_class_unsortable :
    pySortedDevices fs3 [uD, pD, sD, qD] = none ∧
    pySortedDevices fs3 [uD, pD, sD, qD] ≠ some [pD, sD, qD, uD] := by
  decide

/-- C3 (amended): over devices classified pata/sata/usb the order is total
and as claimed — any arrangement of a PATA, a SATA and a USB device sorts
to `[pata_dev, sata_dev, usb_dev]` (the class strings compare
`"pata" < "sata" < "usb"` lexicographically), and equal-class devices
tie-break lexicographically on path. -/
theorem c3_classified_order :
    (∀ l : List String, l.Perm [pD, sD, uD] →
      pySortedDevices fs3 l = some [pD, sD, uD]) ∧
    pySortedDevices fs3 [p2D, pD] = some [pD, p2D] := by
  refine ⟨?_, by decide⟩
  intro l h
  have h3 : l.length = 3 := h.length_eq
  rcases l with _ | ⟨a, _ | ⟨b, _ | ⟨c, _ | ⟨d, t⟩⟩⟩⟩ <;>
    simp only [List.length_nil, List.length_cons] at h3 <;> try omega
  have ha : a ∈ [pD, sD, uD] := h.mem_iff.1 (by simp)
  have hb : b ∈ [pD, sD, uD] := h.mem_iff.1 (by simp)
  have hc : c ∈ [pD, sD, uD] := h.mem_iff.1 (by simp)
  simp only [List.mem_cons, List.not_mem_nil, or_false] at ha hb hc
  rcases ha with rfl | rfl | rfl <;> rcases hb with rfl | rfl | rfl <;>
    rcases hc with rfl | rfl | rfl <;> (revert h; decide)

/-- C3 (witness): the three classified devices given in reverse order sort
to PATA first, SATA second, USB last. -/
theorem c3_classified_order_witness :
    pySortedDevices fs3 [uD, sD, pD] = some [pD, sD, uD] :=
  c3_classified_order.1 [uD, sD, pD] (by decide)

/-- C4 (counterexample): at a layer exposing BOTH attribute-name
conventions (`vendor`/`device` = `1002`/`4390` and
`idVendor`/`idProduct` = `abcd`/`1234`), the annotation uses the
USB-style values, not the PCI-style ones: the USB-style pair is attempted
even though the PCI-style pair was present, and its values win. -/
theorem c4_pci_pair_not_preferred :
    device_drivers fsBoth devBoth = ["ahci[abcd:1234]"] ∧
    device_drivers fsBoth devBoth ≠ ["ahci[1002:4390]"] := by
  decide

/-- C4 (amended): at every layer where a driver link resolves, the
classifier tries the PCI-style pair first and then ALWAYS tries the
USB-style pair; a USB-style pair that reads successfully overwrites the
PCI-style values (last match wins per layer), and the driver name is
annotated `[vendor:product]` with the surviving values when both are
non-empty. -/
theorem c4_usb_pair_overwrites (fs : Sysfs) (base dv v d iv ip : String)
    (hdrv : fs.readlink (base ++ "/driver") = some dv)
    (hv : readAttr fs (base ++ "/vendor") = some v)
    (hd : readAttr fs (base ++ "/device") = some d)
    (hiv : readAttr fs (base ++ "/idVendor") = some iv)
    (hip : readAttr fs (base ++ "/idProduct") = some ip)
    (hiv0 : iv ≠ "") (hip0 : ip ≠ "") :
    layer_driver fs base = some (basename dv ++ "[" ++ iv ++ ":" ++ ip ++ "]") := by
  simp [layer_driver, hdrv, hv, hd, hiv, hip, pyTruthyStr, hiv0, hip0]

/-- C4 (witness): the amended rule evaluated at the two-convention layer
of `fsBoth`. -/
theorem c4_usb_pair_overwrites_witness :
    layer_driver fsBoth "/a/b/p9" =
      some (basename "ahci" ++ "[" ++ "abcd" ++ ":" ++ "1234" ++ "]") :=
  c4_usb_pair_overwrites fsBoth "/a/b/p9" "ahci" "1002" "4390" "abcd" "1234"
    rfl rfl rfl rfl rfl (by decide) (by decide)

/-- C5: the driver-chain walk is total (it is a plain function in the
model, every exception site being caught in the source), and when zero
driver links resolve at any depth it returns the empty sequence. -/
theorem c5_no_drivers_empty (fs : Sysfs) (device : String)
    (h : ∀ p, fs.readlink p = none) :
    device_drivers fs device = [] := by
  have hl : ∀ b, layer_driver fs b = none := by
    intro b
    unfold layer_driver
    rw [h]
  simp only [device_drivers]
  exact List.filterMap_eq_nil_iff.mpr (fun n _ => hl _)

/-- C5 (witness): on a sysfs with no links at all, the walk of a
well-formed canonical path returns the empty sequence. -/
theorem c5_no_drivers_empty_witness : device_drivers fsEmpty qD = [] :=
  c5_no_drivers_empty fsEmpty qD (fun _ => rfl)

/-- C6 (counterexample): on a PATA-affine path with `ata1` at depth 4 and
`ata2` at depth 6, the label's channel component is `ata2` — the LAST
matching segment, not the first as claimed. -/
theorem c6_first_ata_not_used :
    device_type fsPata devTwoAta = some "pata ata2 master" ∧
    device_type fsPata devTwoAta ≠ some "pata ata1 master" := by
  decide

/-- The channel component stated independently of the source's
accumulator loop: the LAST path segment at or after depth 4 whose name
starts with `ata` (the first match of the reversed segment list),
rendered with its leading space; empty when no segment matches. -/
def lastAtaSegment (device : String) : String :=
  match ((pySplit '/' device).drop 4).reverse.find? (fun seg => pyStartsWith seg "ata") with
  | some seg => " " ++ seg
  | none => ""

/-- An overwrite-accumulator fold keeps the last matching element: it
equals the first match of the reversed list (or the initial value). -/
theorem foldl_overwrite_eq_reverse_find (p : String → Bool) :
    ∀ (l : List String) (init : String),
      l.foldl (fun acc seg => if p seg then " " ++ seg else acc) init =
        match l.reverse.find? p with
        | some seg => " " ++ seg
        | none => init := by
  intro l
  induction l with
  | nil => intro init; rfl
  | cons a t ih =>
    intro init
    rw [List.foldl_cons, ih, List.reverse_cons, List.find?_append]
    cases ht : t.reverse.find? p with
    | some x => simp [Option.or]
    | none =>
      cases hpa : p a <;> simp [Option.or, List.find?, hpa]

/-- C6 (amended): for every PATA-affine device, the label is the sort-key
class followed by the LAST `ata*` segment at or after depth 4 (later
matches overwrite earlier ones) and a master/slave suffix that is
`slave` exactly when the path contains the substring `:1:0/block`. -/
theorem c6_last_ata_channel (fs : Sysfs) (device : String)
    (h : is_pata (device_drivers fs device) = true) :
    device_type fs device =
      some ((device_sort_key fs device).1.getD "" ++ lastAtaSegment device ++
        (if pyIn ":1:0/block" device then " slave" else " master")) := by
  simp only [device_type, h, if_true]
  rw [foldl_overwrite_eq_reverse_find]
  rfl

/-- C6 (witness): the amended label rule evaluated on the two-`ata*`
device of `fsPata`. -/
theorem c6_last_ata_channel_witness :
    device_type fsPata devTwoAta =
      some ((device_sort_key fsPata devTwoAta).1.getD "" ++
        lastAtaSegment devTwoAta ++
        (if pyIn ":1:0/block" devTwoAta then " slave" else " master")) :=
  c6_last_ata_channel fsPata devTwoAta (by decide)

/-- C7: loading an absent baseline store yields the empty mapping, every
device then has no baseline entry, and an eject or close run on such a
device prints empty reference-delta comparison strings in all four
phases. -/
theorem c7_absent_store_no_deltas (fs : Sysfs) (w : TrayWorld) (device : String) :
    load_timings none = [] ∧
    timingsGet (load_timings none) device = none ∧
    ((tray_eject fs w device (timingsGet (load_timings none) device)).ref_open = "" ∧
     (tray_eject fs w device (timingsGet (load_timings none) device)).ref_ioctl = "" ∧
     (tray_eject fs w device (timingsGet (load_timings none) device)).ref_close = "" ∧
     (tray_eject fs w device (timingsGet (load_timings none) device)).ref_total = "") ∧
    ((tray_close fs w device (timingsGet (load_timings none) device)).ref_open = "" ∧
     (tray_close fs w device (timingsGet (load_timings none) device)).ref_ioctl = "" ∧
     (tray_close fs w device (timingsGet (load_timings none) device)).ref_close = "" ∧
     (tray_close fs w device (timingsGet (load_timings none) device)).ref_total = "") := by
  refine ⟨rfl, rfl, ?_, ?_⟩ <;>
    cases hfx : formatHexRet w.ioctlOutcome <;>
      simp [tray_eject, tray_close, timingsGet, load_timings, hfx]

/-- C8: pickling the mapping produced by a reference capture and loading
it back reproduces exactly the same per-device phase timings. -/
theorem c8_reference_roundtrip (fs : Sysfs) (ws : String → TrayWorld × TrayWorld)
    (devices : List String) (m : List (String × DeviceTimings))
    (h : reference_timings fs ws devices = some m) :
    pickle_load (pickle_dump m) = some m := by
  clear h
  induction m with
  | nil => rfl
  | cons e t ih =>
    obtain ⟨p, tm⟩ := e
    simp [pickle_dump, pickle_load, ih]

/-- C8 (witness): a one-device reference capture round-trips through the
store. -/
theorem c8_reference_roundtrip_witness :
    pickle_load (pickle_dump [(pD, ⟨9, 1, 2, 1, 9, 1, 2, 1⟩)]) =
      some [(pD, ⟨9, 1, 2, 1, 9, 1, 2, 1⟩)] :=
  c8_reference_roundtrip fsEmpty okWs [pD] _ (by decide)

/-- C9: with an empty discovered device list and sequential mode not
requested, the run fails at worker-pool construction (`processes=0` is
rejected with `ValueError`) and produces no events at all — no device
operation, no baseline load, no category dispatch. -/
theorem c9_empty_pool_rejected (fs : Sysfs) (ws : String → TrayWorld × TrayWorld)
    (args : Args) (store : Option (List (String × DeviceTimings)))
    (h : args.sequential = false) :
    main_run fs ws args [] store = Except.error poolSizeError := by
  simp [main_run, h]

/-- C9 (witness): a full-flag concurrent run over zero devices fails with
the pool `ValueError`. -/
theorem c9_empty_pool_rejected_witness :
    main_run fsEmpty okWs ⟨true, false, true, true, true, true, true, true, none⟩
      [] none = Except.error poolSizeError :=
  c9_empty_pool_rejected fsEmpty okWs
    ⟨true, false, true, true, true, true, true, true, none⟩ none rfl

/-- C10: with a truthy device-name filter, the eject category selects
EVERY device of the narrowed list when only the non-USB eject flag is set
(the third disjunct of the selection lambda holds regardless of USB
affinity), and symmetrically for close. -/
theorem c10_filter_selects_all (args : Args) (devices : List String)
    (hf : pyTruthyList args.filter = true) :
    (args.eject = true → devices.filter (eject_selected args) = devices) ∧
    (args.close = true → devices.filter (close_selected args) = devices) := by
  constructor
  · intro he
    exact List.filter_eq_self.mpr (fun d _ => by simp [eject_selected, he, hf])
  · intro hc
    exact List.filter_eq_self.mpr (fun d _ => by simp [close_selected, hc, hf])

/-- C10 (witness): with `-e -c -f`, a narrowed list containing a
USB-affine device is dispatched in full for both eject and close even
though neither USB flag is set. -/
theorem c10_filter_selects_all_witness :
    [pD, uD].filter
      (eject_selected ⟨false, false, true, false, true, false, false, false,
        some ["sr0", "sr1"]⟩) = [pD, uD] :=
  (c10_filter_selects_all
    ⟨false, false, true, false, true, false, false, false, some ["sr0", "sr1"]⟩
    [pD, uD] rfl).1 rfl
